import Mathlib

/-!
# Verification of the securecredentials key-wrapping and field-store subsystem

Shallow embedding of `securecredentials/core.py` (class `SecureCredentials`),
`securecredentials/utils.py` (class `KeyHandler`) and
`securecredentials/exceptions.py`.

Byte strings are modelled as `List Nat` with every element `< 256`.
External libraries (the `cryptography` package's AES-GCM and Scrypt, and the
standard `base64` codec) are modelled by idealized executable functions that
satisfy their documented contracts: AES-GCM is an authenticated cipher whose
decryption inverts encryption under the same key/nonce and checks a 16-byte
tag; Scrypt is a deterministic 32-byte KDF of key material and salt; base64
is the real RFC 4648 encoding with padding. File-system state is made
explicit: each operation receives and returns the contents of the master-key
file and the user-store file (`Option` = file absent), and the sources of
randomness (`os.urandom`) and interactive input (`input(...)`) are passed as
parameters.
-/

namespace SecureCred

/-- Python exceptions that the embedded operations can raise.
`libValueError` is the foreign `ValueError` raised by the `cryptography`
library's `AESGCM` constructor on a bad key size; `invalidTag` is the
library's `InvalidTag`; the rest are the typed exceptions declared in
`securecredentials/exceptions.py`. -/
inductive PyError where
  | invalidKeyLength        -- InvalidKeyLengthError (ValueError subclass, repo-defined)
  | libValueError           -- plain ValueError from the cryptography library
  | invalidTag              -- cryptography.exceptions.InvalidTag
  | fieldDecryption         -- FieldDecryptionError
  | masterKeyDecryption     -- MasterKeyDecryptionError
  | passphraseRequired      -- PassphraseRequiredError
  | passphraseNotAllowed    -- PassphraseNotAllowedError
  | userDatabaseNotFound    -- UserDatabaseNotFoundError
  | masterDatabaseNotFound  -- MasterDatabaseNotFoundError
  | secureFieldNotFound     -- SecureFieldNotFoundError
  deriving DecidableEq, Repr

/-! ## base64 (model of Python's `base64.b64encode` / `base64.b64decode`) -/

/-- The RFC 4648 base64 alphabet as ASCII codes: `A-Z`, `a-z`, `0-9`, `+`, `/`. -/
def b64Alphabet : List Nat :=
  (List.range 26).map (· + 65) ++ (List.range 26).map (· + 97) ++
  (List.range 10).map (· + 48) ++ [43, 47]

/-- ASCII code of the base64 padding character `=`. -/
def b64Pad : Nat := 61

/-- Map a 6-bit value to its base64 alphabet character. -/
def sextetToChar (s : Nat) : Nat := b64Alphabet.getD s 65

/-- Map a base64 alphabet character back to its 6-bit value. -/
def charToSextet (c : Nat) : Nat := b64Alphabet.indexOf c

/-- `base64.b64encode`: 3 input bytes become 4 alphabet characters, with
`=` padding for a trailing group of 1 or 2 bytes. -/
def b64encode : List Nat → List Nat
  | [] => []
  | [b0] => [sextetToChar (b0 / 4), sextetToChar (b0 % 4 * 16), b64Pad, b64Pad]
  | [b0, b1] => [sextetToChar (b0 / 4), sextetToChar (b0 % 4 * 16 + b1 / 16),
                 sextetToChar (b1 % 16 * 4), b64Pad]
  | b0 :: b1 :: b2 :: rest =>
      sextetToChar (b0 / 4) :: sextetToChar (b0 % 4 * 16 + b1 / 16) ::
      sextetToChar (b1 % 16 * 4 + b2 / 64) :: sextetToChar (b2 % 64) :: b64encode rest

/-- `base64.b64decode`: inverse of `b64encode` on well-formed input. -/
def b64decode : List Nat → List Nat
  | c0 :: c1 :: c2 :: c3 :: rest =>
      let s0 := charToSextet c0
      let s1 := charToSextet c1
      if c2 = b64Pad then [s0 * 4 + s1 / 16]
      else
        let s2 := charToSextet c2
        if c3 = b64Pad then [s0 * 4 + s1 / 16, s1 % 16 * 16 + s2 / 4]
        else (s0 * 4 + s1 / 16) :: (s1 % 16 * 16 + s2 / 4) ::
             (s2 % 4 * 64 + charToSextet c3) :: b64decode rest
  | _ => []

theorem charToSextet_sextetToChar {s : Nat} (h : s < 64) :
    charToSextet (sextetToChar s) = s := by
  revert h; revert s; decide

theorem sextetToChar_ne_pad {s : Nat} (h : s < 64) : sextetToChar s ≠ b64Pad := by
  revert h; revert s; decide

/-- Every byte list round-trips through the modelled base64 codec. -/
theorem b64decode_b64encode (l : List Nat) (h : ∀ b ∈ l, b < 256) :
    b64decode (b64encode l) = l := by
  induction l using b64encode.induct with
  | case1 => rfl
  | case2 b0 =>
      have hb0 : b0 < 256 := h b0 (by simp)
      rw [b64encode, b64decode, if_pos rfl]
      rw [charToSextet_sextetToChar (show b0 / 4 < 64 by omega),
          charToSextet_sextetToChar (show b0 % 4 * 16 < 64 by omega)]
      congr 1
      omega
  | case3 b0 b1 =>
      have hb0 : b0 < 256 := h b0 (by simp)
      have hb1 : b1 < 256 := h b1 (by simp)
      rw [b64encode, b64decode]
      rw [if_neg (sextetToChar_ne_pad (show b1 % 16 * 4 < 64 by omega)), if_pos rfl]
      rw [charToSextet_sextetToChar (show b0 / 4 < 64 by omega),
          charToSextet_sextetToChar (show b0 % 4 * 16 + b1 / 16 < 64 by omega),
          charToSextet_sextetToChar (show b1 % 16 * 4 < 64 by omega)]
      congr 1
      · omega
      · congr 1; omega
  | case4 b0 b1 b2 rest ih =>
      have hb0 : b0 < 256 := h b0 (by simp)
      have hb1 : b1 < 256 := h b1 (by simp)
      have hb2 : b2 < 256 := h b2 (by simp)
      rw [b64encode, b64decode]
      rw [if_neg (sextetToChar_ne_pad (show b1 % 16 * 4 + b2 / 64 < 64 by omega)),
          if_neg (sextetToChar_ne_pad (show b2 % 64 < 64 by omega))]
      rw [charToSextet_sextetToChar (show b0 / 4 < 64 by omega),
          charToSextet_sextetToChar (show b0 % 4 * 16 + b1 / 16 < 64 by omega),
          charToSextet_sextetToChar (show b1 % 16 * 4 + b2 / 64 < 64 by omega),
          charToSextet_sextetToChar (show b2 % 64 < 64 by omega)]
      rw [ih (fun b hb => h b (by simp [hb]))]
      congr 1
      · omega
      · congr 1
        · omega
        · congr 1; omega

/-! ## AES-GCM (idealized model of `cryptography.hazmat...aead.AESGCM`) -/

/-- The AESGCM constructor accepts only 128/192/256-bit keys; any other
length raises the library's `ValueError`. -/
def validAesKeyLength (key : List Nat) : Bool :=
  key.length = 16 || key.length = 24 || key.length = 32

/-- Associated data as fed to the authentication tag (`None` or bytes). -/
def aadBytes : Option (List Nat) → List Nat
  | none => []
  | some a => 4 :: a

/-- Idealized keystream byte `i` of the AES-GCM stream for `key`/`nonce`. -/
def gcmKeystream (key nonce : List Nat) (i : Nat) : Nat :=
  ((key ++ 1 :: nonce).foldl (fun a b => (a * 131 + b + 1) % 65536) 7 + i * 17) % 256

/-- Idealized 16-byte authentication tag over key, nonce, associated data
and plaintext. -/
def gcmTag (key nonce : List Nat) (aad : Option (List Nat)) (data : List Nat) : List Nat :=
  (List.range 16).map fun i =>
    ((key ++ 2 :: nonce ++ 3 :: aadBytes aad ++ 5 :: data).foldl
        (fun a b => (a * 131 + b + 1) % 65536) 11 + i * 29) % 256

/-- XOR a byte list with the keystream starting at position `i`. -/
def maskFrom (key nonce : List Nat) (i : Nat) : List Nat → List Nat
  | [] => []
  | b :: rest => (b ^^^ gcmKeystream key nonce i) :: maskFrom key nonce (i + 1) rest

/-- `AESGCM(key).encrypt(nonce, data, aad)`: ciphertext with the 16-byte
authentication tag appended. -/
def aesgcmEncrypt (key nonce : List Nat) (data : List Nat) (aad : Option (List Nat)) :
    List Nat :=
  maskFrom key nonce 0 data ++ gcmTag key nonce aad data

/-- `AESGCM(key).decrypt(nonce, ct, aad)`: `none` models the library raising
`InvalidTag` (input too short to hold a tag, or tag verification failure). -/
def aesgcmDecrypt (key nonce : List Nat) (ct : List Nat) (aad : Option (List Nat)) :
    Option (List Nat) :=
  if ct.length < 16 then none
  else
    let body := ct.take (ct.length - 16)
    let tag := ct.drop (ct.length - 16)
    let data := maskFrom key nonce 0 body
    if tag = gcmTag key nonce aad data then some data else none

theorem maskFrom_length (key nonce : List Nat) (i : Nat) (l : List Nat) :
    (maskFrom key nonce i l).length = l.length := by
  induction l generalizing i with
  | nil => rfl
  | cons b rest ih => simp [maskFrom, ih]

theorem maskFrom_maskFrom (key nonce : List Nat) (i : Nat) (l : List Nat) :
    maskFrom key nonce i (maskFrom key nonce i l) = l := by
  induction l generalizing i with
  | nil => rfl
  | cons b rest ih =>
      simp only [maskFrom, ih]
      rw [Nat.xor_assoc, Nat.xor_self, Nat.xor_zero]

theorem gcmKeystream_lt (key nonce : List Nat) (i : Nat) :
    gcmKeystream key nonce i < 256 :=
  Nat.mod_lt _ (by omega)

theorem maskFrom_bytes_lt (key nonce : List Nat) (i : Nat) (l : List Nat)
    (h : ∀ b ∈ l, b < 256) : ∀ b ∈ maskFrom key nonce i l, b < 256 := by
  induction l generalizing i with
  | nil => simp [maskFrom]
  | cons b rest ih =>
      intro x hx
      simp only [maskFrom, List.mem_cons] at hx
      rcases hx with hx | hx
      · subst hx
        have h1 : b < 2 ^ 8 := h b (by simp)
        have h2 : gcmKeystream key nonce i < 2 ^ 8 := gcmKeystream_lt key nonce i
        exact Nat.xor_lt_two_pow h1 h2
      · exact ih (i + 1) (fun y hy => h y (by simp [hy])) x hx

theorem gcmTag_bytes_lt (key nonce : List Nat) (aad : Option (List Nat)) (data : List Nat) :
    ∀ b ∈ gcmTag key nonce aad data, b < 256 := by
  intro b hb
  simp only [gcmTag, List.mem_map] at hb
  obtain ⟨i, _, rfl⟩ := hb
  exact Nat.mod_lt _ (by omega)

theorem aesgcmEncrypt_bytes_lt (key nonce data : List Nat) (aad : Option (List Nat))
    (h : ∀ b ∈ data, b < 256) : ∀ b ∈ aesgcmEncrypt key nonce data aad, b < 256 := by
  intro b hb
  rcases List.mem_append.mp hb with hb | hb
  · exact maskFrom_bytes_lt key nonce 0 data h b hb
  · exact gcmTag_bytes_lt key nonce aad data b hb

/-- AEAD round-trip at the primitive level: decryption with the same key,
nonce and associated data recovers the plaintext. -/
theorem aesgcmDecrypt_aesgcmEncrypt (key nonce data : List Nat) (aad : Option (List Nat)) :
    aesgcmDecrypt key nonce (aesgcmEncrypt key nonce data aad) aad = some data := by
  have hlen : (aesgcmEncrypt key nonce data aad).length = data.length + 16 := by
    simp [aesgcmEncrypt, maskFrom_length, gcmTag, List.length_append]
  rw [aesgcmDecrypt, if_neg (by omega)]
  have htake : (aesgcmEncrypt key nonce data aad).take
      ((aesgcmEncrypt key nonce data aad).length - 16) = maskFrom key nonce 0 data := by
    rw [hlen, Nat.add_sub_cancel, aesgcmEncrypt,
        ← maskFrom_length key nonce 0 data, List.take_left]
  have hdrop : (aesgcmEncrypt key nonce data aad).drop
      ((aesgcmEncrypt key nonce data aad).length - 16) = gcmTag key nonce aad data := by
    rw [hlen, Nat.add_sub_cancel, aesgcmEncrypt,
        ← maskFrom_length key nonce 0 data, List.drop_left]
  simp [htake, hdrop, maskFrom_maskFrom]

/-! ## Scrypt (idealized model of `cryptography.hazmat...kdf.scrypt.Scrypt`) -/

/-- Idealized Scrypt: a deterministic 32-byte digest of key material and
salt (the source instantiates `Scrypt(salt, length=32, n=2**16, r=8, p=1)`
and calls `derive(key_material)`). -/
def scrypt (keyMaterial salt : List Nat) : List Nat :=
  (List.range 32).map fun i =>
    ((keyMaterial ++ 37 :: salt).foldl (fun a b => (a * 257 + b + 1) % 65536) 9 + i * 41) % 256

theorem scrypt_length (keyMaterial salt : List Nat) :
    (scrypt keyMaterial salt).length = 32 := by
  simp [scrypt]

theorem scrypt_bytes_lt (keyMaterial salt : List Nat) :
    ∀ b ∈ scrypt keyMaterial salt, b < 256 := by
  intro b hb
  simp only [scrypt, List.mem_map] at hb
  obtain ⟨i, _, rfl⟩ := hb
  exact Nat.mod_lt _ (by omega)

/-- UTF-8 encoding of a Python `str`, modelled as its character codes
(injective, which is all the KDF contract needs). -/
def strBytes (s : String) : List Nat := s.data.map Char.toNat

/-- Python truthiness of an optional string: `None` and `""` are falsy
(`if not passphrase:` in `KeyHandler.load_key`). -/
def pyTruthy : Option String → Bool
  | none => false
  | some s => !s.isEmpty

/-- A JSON scalar as written by `json.dump`, distinguishing strings from
integers (needed to state what type `schema_version` is persisted as). -/
inductive JVal where
  | jstr (s : String)
  | jnum (n : Nat)
  deriving DecidableEq, Repr

/-- `true` exactly when the JSON value is an integer. -/
def JVal.isInt : JVal → Bool
  | .jnum _ => true
  | .jstr _ => false

/-- Modelled from the spec: the module `securecredentials/schema_version.py`
is absent from the sources; the spec calls `schema_version` a small integer
persisted but unused. Its concrete value does not affect any claim. -/
def MASTER_DB_VERSION : Nat := 1

/-- Modelled from the spec: `USER_DB_VERSION` from the same absent module. -/
def USER_DB_VERSION : Nat := 1

/-! ## KeyHandler (`securecredentials/utils.py`) -/

/-- The JSON object written by `KeyHandler.store_key`: `salt`, `nonce` and
`data` hold base64 text (modelled as the list of base64 character codes),
and `schema_version` holds whatever JSON scalar the code serializes. -/
structure MasterContainer where
  mode : String
  schema_version : JVal
  salt : List Nat
  nonce : List Nat
  data : List Nat
  deriving DecidableEq, Repr

namespace KeyHandler

/-- `KeyHandler._salt_size`: 128-bit random salt for the KDF. -/
def salt_size : Nat := 16

/-- `KeyHandler._nonce_size`: 96-bit nonce for GCM. -/
def nonce_size : Nat := 12

/-- `KeyHandler._get_deterministic_kek`: Scrypt over the concatenated,
normalized machine/user identifiers (modelled as the opaque seed string
`sysid`) and the salt. -/
def getDeterministicKek (sysid : String) (salt : List Nat) : List Nat :=
  scrypt (strBytes sysid) salt

/-- `KeyHandler._get_kek_from_passphrase`: Scrypt over the UTF-8 passphrase
and the salt.  (The function's `if salt is None` branch is dead code: both
call sites always pass a salt.) -/
def getKekFromPassphrase (passphrase : String) (salt : List Nat) : List Nat :=
  scrypt (strBytes passphrase) salt

/-- `KeyHandler.store_key`: derive the KEK (system mode when the passphrase
is `None`, passphrase mode otherwise), AES-GCM-encrypt the DEK, and write
the JSON container.  The random salt and nonce (`os.urandom`) are passed in
explicitly; the return value is the file contents after the atomic
temp-file + `os.replace` write. -/
def store_key (key : List Nat) (passphrase : Option String) (sysid : String)
    (salt nonce : List Nat) : MasterContainer :=
  let modeKek : String × List Nat :=
    match passphrase with
    | none => ("system", getDeterministicKek sysid salt)
    | some p => ("passphrase", getKekFromPassphrase p salt)
  let encrypted_master_key := aesgcmEncrypt modeKek.2 nonce key none
  { mode := modeKek.1
    schema_version := .jstr (Nat.repr MASTER_DB_VERSION)
    salt := b64encode salt
    nonce := b64encode nonce
    data := b64encode encrypted_master_key }

/-- `KeyHandler.load_key` given the parsed container JSON: enforce the
mode/passphrase agreement, re-derive the KEK from the stored salt, and
AES-GCM-decrypt the wrapped DEK; `InvalidTag` is converted to
`MasterKeyDecryptionError`.  (`schema_version` is read but unused.) -/
def load_key (passphrase : Option String) (sysid : String) (c : MasterContainer) :
    Except PyError (List Nat) :=
  if c.mode = "passphrase" then
    if pyTruthy passphrase = false then
      .error .passphraseRequired
    else
      let aes_key := getKekFromPassphrase (passphrase.getD "") (b64decode c.salt)
      match aesgcmDecrypt aes_key (b64decode c.nonce) (b64decode c.data) none with
      | some master_key => .ok master_key
      | none => .error .masterKeyDecryption
  else
    if pyTruthy passphrase = true then
      .error .passphraseNotAllowed
    else
      let aes_key := getDeterministicKek sysid (b64decode c.salt)
      match aesgcmDecrypt aes_key (b64decode c.nonce) (b64decode c.data) none with
      | some master_key => .ok master_key
      | none => .error .masterKeyDecryption

end KeyHandler

/-! ## SecureCredentials (`securecredentials/core.py`) -/

/-- One entry of the user store's `fields` mapping: base64 text of the
AES-GCM ciphertext (with tag) and of the nonce. -/
structure FieldEntry where
  ciphertext : List Nat
  nonce : List Nat
  deriving DecidableEq, Repr

/-- The user store JSON document `{"version": ..., "fields": {...}}`.
The Python dict is modelled as an association list with unique keys. -/
structure UserDB where
  version : Nat
  fields : List (String × FieldEntry)
  deriving DecidableEq, Repr

/-- Python dict assignment `d[k] = v`: replace the value of an existing key
in place, otherwise append the new binding. -/
def dictSet {α : Type} : List (String × α) → String → α → List (String × α)
  | [], k, v => [(k, v)]
  | (k', v') :: rest, k, v =>
      if k' = k then (k, v) :: rest else (k', v') :: dictSet rest k v

/-- The class-level mutable state of `SecureCredentials` together with the
contents of the two on-disk files (`none` = file absent). -/
structure VaultState where
  masterKey : Option (List Nat)        -- cls._master_key
  passphrase : Option String           -- cls._passphrase
  masterDb : Option MasterContainer    -- file at cls._master_db_path
  userDb : Option UserDB               -- file at cls._user_db_path
  deriving DecidableEq, Repr

namespace SecureCredentials

/-- Python `str.strip()`: drop leading and trailing whitespace. -/
def pyStrip (l : List Char) : List Char :=
  ((l.dropWhile Char.isWhitespace).reverse.dropWhile Char.isWhitespace).reverse

/-- Python `str.lower()` on one character (ASCII case mapping). -/
def pyLowerChar (c : Char) : Char :=
  if 65 ≤ c.toNat ∧ c.toNat ≤ 90 then Char.ofNat (c.toNat + 32) else c

/-- `user_response.strip().lower() in ['y', 'yes']`: the confirmation test
applied to the interactive reply. -/
def affirmed (resp : String) : Bool :=
  let t := (pyStrip resp.data).map pyLowerChar
  t == ['y'] || t == ['y', 'e', 's']

/-- Static method `SecureCredentials.encrypt`: construct `AESGCM(key)`
(the library raises `ValueError` on a bad key size), draw a fresh 12-byte
nonce (passed in explicitly) and return `(ciphertext, nonce)`. -/
def encrypt (plaintext key : List Nat) (aad : Option (List Nat)) (nonce : List Nat) :
    Except PyError (List Nat × List Nat) :=
  if validAesKeyLength key then
    .ok (aesgcmEncrypt key nonce plaintext aad, nonce)
  else
    .error .libValueError

/-- Static method `SecureCredentials.decrypt`: construct `AESGCM(key)` and
decrypt; tag failure surfaces as the library's `InvalidTag`. -/
def decrypt (ciphertext key nonce : List Nat) (aad : Option (List Nat)) :
    Except PyError (List Nat) :=
  if validAesKeyLength key then
    match aesgcmDecrypt key nonce ciphertext aad with
    | some pt => .ok pt
    | none => .error .invalidTag
  else
    .error .libValueError

/-- `SecureCredentials._load_master_key`: raise `MasterDatabaseNotFoundError`
if the master file is absent, else unwrap the DEK and cache it. -/
def loadMasterKey (sysid : String) (s : VaultState) : Except PyError VaultState :=
  match s.masterDb with
  | none => .error .masterDatabaseNotFound
  | some c =>
      match KeyHandler.load_key s.passphrase sysid c with
      | .error e => .error e
      | .ok k => .ok { s with masterKey := some k }

/-- The shared prologue of `get_secure` and `set_secure`: use the explicit
`key` argument if given, else the cached master key, else load it from disk
(caching it in the state). -/
def resolveKey (key : Option (List Nat)) (sysid : String) (s : VaultState) :
    Except PyError (List Nat × VaultState) :=
  match key with
  | some k => .ok (k, s)
  | none =>
      match s.masterKey with
      | some k => .ok (k, s)
      | none =>
          match loadMasterKey sysid s with
          | .error e => .error e
          | .ok s' => .ok (s'.masterKey.getD [], s')

/-- `SecureCredentials.store_master_key`: validate the key length, then
(when `user_confirmation` is set) consult the interactive reply and discard
the action unless affirmed; otherwise wrap the key via
`KeyHandler.store_key` and cache it. -/
def store_master_key (master_key : List Nat) (user_confirmation : Bool) (resp : String)
    (sysid : String) (salt nonce : List Nat) (s : VaultState) : Except PyError VaultState :=
  if !validAesKeyLength master_key then
    .error .invalidKeyLength
  else if user_confirmation && !affirmed resp then
    .ok s
  else
    .ok { s with
          masterDb := some (KeyHandler.store_key master_key s.passphrase sysid salt nonce)
          masterKey := some master_key }

/-- `SecureCredentials.get_secure`: resolve the key, require the user store
file, require the field, then decrypt converting `InvalidTag` to
`FieldDecryptionError`. -/
def get_secure (field : String) (key : Option (List Nat)) (sysid : String)
    (s : VaultState) : Except PyError (List Nat × VaultState) :=
  match resolveKey key sysid s with
  | .error e => .error e
  | .ok (k, s') =>
      match s'.userDb with
      | none => .error .userDatabaseNotFound
      | some db =>
          match db.fields.lookup field with
          | none => .error .secureFieldNotFound
          | some cipher_data =>
              match decrypt (b64decode cipher_data.ciphertext) k
                  (b64decode cipher_data.nonce) none with
              | .ok pt => .ok (pt, s')
              | .error .invalidTag => .error .fieldDecryption
              | .error e => .error e

/-- `SecureCredentials.set_secure`: resolve the key, load or initialize the
store, consult the interactive reply before overwriting an existing field
(when `user_confirmation` is set), then encrypt with a fresh nonce and
rewrite the whole store. -/
def set_secure (field : String) (plaintext : List Nat) (key : Option (List Nat))
    (user_confirmation : Bool) (resp : String) (nonce : List Nat) (sysid : String)
    (s : VaultState) : Except PyError VaultState :=
  match resolveKey key sysid s with
  | .error e => .error e
  | .ok (k, s') =>
      let data_dict := s'.userDb.getD { version := USER_DB_VERSION, fields := [] }
      if (data_dict.fields.lookup field).isSome && user_confirmation && !affirmed resp then
        .ok s'
      else
        match encrypt plaintext k none nonce with
        | .error e => .error e
        | .ok (ciphertext, n) =>
            .ok { s' with
                  userDb := some
                    { data_dict with
                      fields := dictSet data_dict.fields field
                        { ciphertext := b64encode ciphertext, nonce := b64encode n } } }

end SecureCredentials

/-- The keys of the user store are pairwise distinct (true of any store
parsed from JSON, where `fields` is a Python dict). -/
def keysNodup : Option UserDB → Prop
  | none => True
  | some db => (db.fields.map Prod.fst).Nodup

/-! ## Helper lemmas about the dict model -/

theorem dictSet_lookup {α : Type} (m : List (String × α)) (k : String) (v : α) :
    (dictSet m k v).lookup k = some v := by
  induction m with
  | nil => simp [dictSet, List.lookup]
  | cons p rest ih =>
      obtain ⟨k', v'⟩ := p
      by_cases hk : k' = k
      · simp [dictSet, hk, List.lookup]
      · simp only [dictSet, if_neg hk, List.lookup]
        rw [show (k == k') = false from beq_eq_false_iff_ne.mpr (Ne.symm hk)]
        exact ih

theorem filter_eq_nil_of_not_mem_keys {α : Type} (m : List (String × α)) (k : String)
    (h : k ∉ m.map Prod.fst) : m.filter (fun p => p.1 == k) = [] := by
  induction m with
  | nil => rfl
  | cons p rest ih =>
      simp only [List.map_cons, List.mem_cons, not_or] at h
      simp only [List.filter_cons]
      rw [if_neg (by simp ; exact fun hc => h.1 hc.symm)]
      exact ih h.2

theorem dictSet_filter_length {α : Type} (m : List (String × α)) (k : String) (v : α)
    (h : (m.map Prod.fst).Nodup) :
    ((dictSet m k v).filter (fun p => p.1 == k)).length = 1 := by
  induction m with
  | nil => simp [dictSet]
  | cons p rest ih =>
      obtain ⟨k', v'⟩ := p
      simp only [List.map_cons, List.nodup_cons] at h
      by_cases hk : k' = k
      · subst hk
        simp only [dictSet, if_pos rfl, List.filter_cons, beq_self_eq_true, if_pos]
        simp [filter_eq_nil_of_not_mem_keys rest k' h.1]
      · simp only [dictSet, if_neg hk, List.filter_cons]
        rw [if_neg (by simp [hk])]
        exact ih h.2

theorem mem_keys_dictSet {α : Type} (m : List (String × α)) (k : String) (v : α) :
    ∀ x ∈ (dictSet m k v).map Prod.fst, x = k ∨ x ∈ m.map Prod.fst := by
  induction m with
  | nil => simp [dictSet]
  | cons p rest ih =>
      obtain ⟨k', v'⟩ := p
      by_cases hk : k' = k
      · subst hk
        simp [dictSet]
      · intro x hx
        simp only [dictSet, if_neg hk, List.map_cons, List.mem_cons] at hx
        rcases hx with hx | hx
        · simp [hx]
        · rcases ih x hx with h1 | h1
          · exact Or.inl h1
          · simp [h1]

theorem dictSet_keys_nodup {α : Type} (m : List (String × α)) (k : String) (v : α)
    (h : (m.map Prod.fst).Nodup) :
    ((dictSet m k v).map Prod.fst).Nodup := by
  induction m with
  | nil => simp [dictSet]
  | cons p rest ih =>
      obtain ⟨k', v'⟩ := p
      simp only [List.map_cons, List.nodup_cons] at h
      by_cases hk : k' = k
      · subst hk
        simpa [dictSet, List.nodup_cons] using h
      · simp only [dictSet, if_neg hk, List.map_cons, List.nodup_cons]
        refine ⟨?_, ih h.2⟩
        intro hmem
        rcases mem_keys_dictSet rest k v k' hmem with h1 | h1
        · exact hk h1
        · exact h.1 h1

/-- Decrypting through the stored (base64) fields: unwrapping with the same
KEK and nonce recovers the DEK after the base64 round-trip. -/
theorem b64_aesgcm_round (kek nonce dek : List Nat)
    (hdek : ∀ b ∈ dek, b < 256) (hnonce : ∀ b ∈ nonce, b < 256) :
    aesgcmDecrypt kek (b64decode (b64encode nonce))
      (b64decode (b64encode (aesgcmEncrypt kek nonce dek none))) none = some dek := by
  rw [b64decode_b64encode nonce hnonce,
      b64decode_b64encode _ (aesgcmEncrypt_bytes_lt kek nonce dek none hdek),
      aesgcmDecrypt_aesgcmEncrypt]

/-! ## Claim theorems -/

/-- C9: if the passphrase is the empty string, `store_key` writes the
container with mode `passphrase` (only a `None` passphrase selects system
mode), but `load_key` under that same empty-string passphrase raises
`PassphraseRequiredError` (it tests passphrase truthiness), so the
store/load round-trip fails for the empty passphrase. -/
theorem C9_empty_passphrase_asymmetry (dek salt nonce : List Nat) (sysid : String) :
    (KeyHandler.store_key dek (some "") sysid salt nonce).mode = "passphrase" ∧
    KeyHandler.load_key (some "") sysid
      (KeyHandler.store_key dek (some "") sysid salt nonce) =
      .error .passphraseRequired := by
  exact ⟨rfl, rfl⟩

/-- C1 counterexample: the claimed round-trip fails for the empty
passphrase — storing a 16-byte DEK under passphrase `""` and loading it
back under the same passphrase raises `PassphraseRequiredError` instead of
returning the DEK. -/
theorem C1_counterexample_empty_passphrase :
    KeyHandler.load_key (some "") "host"
      (KeyHandler.store_key (List.replicate 16 0) (some "") "host"
        (List.replicate 16 0) (List.replicate 12 0)) =
      .error .passphraseRequired := rfl

/-- C1 (amended): for every DEK of length 16, 24 or 32, storing with
`KeyHandler.store_key` and loading with `KeyHandler.load_key` under the
same system identity and the same passphrase returns the DEK bit-for-bit,
for every passphrase except the empty string (where loading raises
`PassphraseRequiredError`). -/
theorem C1_master_key_round_trip (dek salt nonce : List Nat) (pass : Option String)
    (sysid : String)
    (_hlen : dek.length = 16 ∨ dek.length = 24 ∨ dek.length = 32)
    (hdek : ∀ b ∈ dek, b < 256) (hsalt : ∀ b ∈ salt, b < 256)
    (hnonce : ∀ b ∈ nonce, b < 256) (hpass : pass ≠ some "") :
    KeyHandler.load_key pass sysid (KeyHandler.store_key dek pass sysid salt nonce) =
      .ok dek := by
  cases pass with
  | none =>
      simp only [KeyHandler.store_key, KeyHandler.load_key]
      rw [if_neg (by decide), if_neg (by decide)]
      rw [b64decode_b64encode salt hsalt, b64_aesgcm_round _ _ _ hdek hnonce]
  | some p =>
      have hpe : p.isEmpty = false := by
        cases hb : p.isEmpty
        · rfl
        · exact absurd (congrArg some ((String.isEmpty_iff p).mp hb)) hpass
      simp only [KeyHandler.store_key, KeyHandler.load_key]
      rw [if_pos trivial]
      rw [show pyTruthy (some p) = true by simp [pyTruthy, hpe]]
      simp only [Bool.true_eq_false]
      rw [if_neg not_false, Option.getD_some]
      rw [b64decode_b64encode salt hsalt, b64_aesgcm_round _ _ _ hdek hnonce]

/-- C1 witness: a concrete 16-byte DEK stored in system mode round-trips. -/
theorem C1_master_key_round_trip_witness :
    KeyHandler.load_key none "host"
      (KeyHandler.store_key (List.replicate 16 0) none "host"
        (List.replicate 16 0) (List.replicate 12 0)) = .ok (List.replicate 16 0) :=
  C1_master_key_round_trip (List.replicate 16 0) (List.replicate 16 0)
    (List.replicate 12 0) none "host" (by decide) (by decide) (by decide) (by decide)
    (by decide)

/-- C2: for every key of length 16, 24 or 32 and every plaintext, with no
associated data, if `encrypt` returns `(ciphertext, nonce)` then `decrypt`
on that ciphertext under the same key and nonce returns the plaintext. -/
theorem C2_aead_round_trip (plaintext key nonce ct n : List Nat)
    (hkey : validAesKeyLength key = true)
    (henc : SecureCredentials.encrypt plaintext key none nonce = .ok (ct, n)) :
    SecureCredentials.decrypt ct key n none = .ok plaintext := by
  rw [SecureCredentials.encrypt, if_pos hkey] at henc
  obtain ⟨hct, hn⟩ : ct = aesgcmEncrypt key nonce plaintext none ∧ n = nonce := by
    cases henc; exact ⟨rfl, rfl⟩
  subst hct; subst hn
  rw [SecureCredentials.decrypt, if_pos hkey, aesgcmDecrypt_aesgcmEncrypt]

/-- C2 witness: a concrete 16-byte key and 2-byte plaintext round-trip. -/
theorem C2_aead_round_trip_witness :
    SecureCredentials.decrypt
      (aesgcmEncrypt (List.replicate 16 0) (List.replicate 12 0) [104, 105] none)
      (List.replicate 16 0) (List.replicate 12 0) none = .ok [104, 105] :=
  C2_aead_round_trip [104, 105] (List.replicate 16 0) (List.replicate 12 0) _ _
    (by decide) rfl

/-- C3 counterexample: storing while a passphrase is set does not fail with
`PassphraseNotAllowedError` — `store_key` has no mode parameter; with a
passphrase set, `store_master_key` succeeds and writes a container whose
mode is `passphrase`. -/
theorem C3_counterexample_store_succeeds :
    SecureCredentials.store_master_key (List.replicate 16 0) false "n" "host"
      (List.replicate 16 0) (List.replicate 12 0)
      { masterKey := none, passphrase := some "p", masterDb := none, userDb := none } =
      .ok { masterKey := some (List.replicate 16 0), passphrase := some "p",
            masterDb := some (KeyHandler.store_key (List.replicate 16 0) (some "p")
              "host" (List.replicate 16 0) (List.replicate 12 0)),
            userDb := none } ∧
    (KeyHandler.store_key (List.replicate 16 0) (some "p") "host"
      (List.replicate 16 0) (List.replicate 12 0)).mode = "passphrase" :=
  ⟨rfl, rfl⟩

/-- C3 (amended): loading a container whose mode is `passphrase` with no
(falsy) passphrase set fails with `PassphraseRequiredError`, and loading a
container whose mode is `system` with a passphrase set fails with
`PassphraseNotAllowedError`; storing never raises
`PassphraseNotAllowedError` — with a passphrase set, `store_key` writes a
passphrase-mode container instead. -/
theorem C3_mode_enforcement (pass : Option String) (sysid : String) (c : MasterContainer)
    (dek salt nonce : List Nat) (p : String) :
    (c.mode = "passphrase" → pyTruthy pass = false →
      KeyHandler.load_key pass sysid c = .error .passphraseRequired) ∧
    (c.mode = "system" → pyTruthy pass = true →
      KeyHandler.load_key pass sysid c = .error .passphraseNotAllowed) ∧
    (KeyHandler.store_key dek (some p) sysid salt nonce).mode = "passphrase" := by
  refine ⟨fun hm hp => ?_, fun hm hp => ?_, rfl⟩
  · rw [KeyHandler.load_key, if_pos hm, if_pos hp]
  · rw [KeyHandler.load_key, if_neg (by rw [hm]; decide), if_pos hp]

/-- C3 witness: the two load-side failures at concrete containers, and a
concrete store with a passphrase set yielding mode `passphrase`. -/
theorem C3_mode_enforcement_witness :
    KeyHandler.load_key none "host"
      { mode := "passphrase", schema_version := .jstr "1", salt := [], nonce := [],
        data := [] } = .error .passphraseRequired ∧
    KeyHandler.load_key (some "p") "host"
      { mode := "system", schema_version := .jstr "1", salt := [], nonce := [],
        data := [] } = .error .passphraseNotAllowed ∧
    (KeyHandler.store_key [0] (some "p") "host" [] []).mode = "passphrase" :=
  ⟨(C3_mode_enforcement none "host"
      { mode := "passphrase", schema_version := .jstr "1", salt := [], nonce := [],
        data := [] } [0] [] [] "p").1 rfl rfl,
   (C3_mode_enforcement (some "p") "host"
      { mode := "system", schema_version := .jstr "1", salt := [], nonce := [],
        data := [] } [0] [] [] "p").2.1 rfl rfl,
   (C3_mode_enforcement (some "p") "host"
      { mode := "system", schema_version := .jstr "1", salt := [], nonce := [],
        data := [] } [0] [] [] "p").2.2⟩

/-- C4 counterexample: with a key of length 8 (not 16/24/32), `encrypt` and
`decrypt` fail with the AEAD library's plain `ValueError`, not with the
repository's typed `InvalidKeyLengthError`. -/
theorem C4_counterexample_foreign_error :
    SecureCredentials.encrypt [1] (List.replicate 8 0) none (List.replicate 12 0) =
      .error .libValueError ∧
    SecureCredentials.decrypt [1] (List.replicate 8 0) (List.replicate 12 0) none =
      .error .libValueError ∧
    PyError.libValueError ≠ PyError.invalidKeyLength := by
  refine ⟨rfl, rfl, by decide⟩

/-- C4 (amended): for every key whose length is not 16, 24 or 32, `encrypt`
and `decrypt` fail — but with the AEAD library's untyped `ValueError`; the
documented `InvalidKeyLengthError` is raised by `store_master_key`'s own
length validation. -/
theorem C4_key_length_contract (plaintext ct key nonce : List Nat)
    (h : validAesKeyLength key = false) :
    SecureCredentials.encrypt plaintext key none nonce = .error .libValueError ∧
    SecureCredentials.decrypt ct key nonce none = .error .libValueError ∧
    (∀ (conf : Bool) (resp sysid : String) (salt n : List Nat) (s : VaultState),
      SecureCredentials.store_master_key key conf resp sysid salt n s =
        .error .invalidKeyLength) := by
  refine ⟨?_, ?_, fun conf resp sysid salt n s => ?_⟩
  · rw [SecureCredentials.encrypt, if_neg (by rw [h]; decide)]
  · rw [SecureCredentials.decrypt, if_neg (by rw [h]; decide)]
  · rw [SecureCredentials.store_master_key, if_pos (by rw [h]; decide)]

/-- C4 witness: the amended contract at a concrete length-8 key. -/
theorem C4_key_length_contract_witness :
    SecureCredentials.encrypt [1] (List.replicate 8 1) none (List.replicate 12 0) =
      .error .libValueError ∧
    SecureCredentials.store_master_key (List.replicate 8 1) true "y" "host" [] []
      { masterKey := none, passphrase := none, masterDb := none, userDb := none } =
      .error .invalidKeyLength :=
  ⟨(C4_key_length_contract [1] [] (List.replicate 8 1) (List.replicate 12 0)
      (by decide)).1,
   (C4_key_length_contract [1] [] (List.replicate 8 1) (List.replicate 12 0)
      (by decide)).2.2 true "y" "host" [] []
      { masterKey := none, passphrase := none, masterDb := none, userDb := none }⟩

/-- C5: with an explicit key, `get_secure` fails with
`UserDatabaseNotFoundError` if the user store file is absent; with
`SecureFieldNotFoundError` if the file exists but the field is not a key of
its `fields` mapping; and with `FieldDecryptionError` if the field exists
but the AEAD tag check fails. -/
theorem C5_get_secure_taxonomy (field : String) (key : List Nat) (sysid : String)
    (s : VaultState) (db : UserDB) (e : FieldEntry) :
    (s.userDb = none →
      SecureCredentials.get_secure field (some key) sysid s =
        .error .userDatabaseNotFound) ∧
    (s.userDb = some db → db.fields.lookup field = none →
      SecureCredentials.get_secure field (some key) sysid s =
        .error .secureFieldNotFound) ∧
    (s.userDb = some db → db.fields.lookup field = some e →
      validAesKeyLength key = true →
      aesgcmDecrypt key (b64decode e.nonce) (b64decode e.ciphertext) none = none →
      SecureCredentials.get_secure field (some key) sysid s =
        .error .fieldDecryption) := by
  refine ⟨fun h1 => ?_, fun h1 h2 => ?_, fun h1 h2 h3 h4 => ?_⟩
  · simp [SecureCredentials.get_secure, SecureCredentials.resolveKey, h1]
  · simp [SecureCredentials.get_secure, SecureCredentials.resolveKey, h1, h2]
  · simp [SecureCredentials.get_secure, SecureCredentials.resolveKey,
          SecureCredentials.decrypt, h1, h2, h3, h4]

/-- C5 witness: the three failures at concrete stores — an absent store, an
empty store, and a store whose single entry fails the tag check. -/
theorem C5_get_secure_taxonomy_witness :
    SecureCredentials.get_secure "f" (some (List.replicate 16 0)) "host"
      { masterKey := none, passphrase := none, masterDb := none, userDb := none } =
      .error .userDatabaseNotFound ∧
    SecureCredentials.get_secure "f" (some (List.replicate 16 0)) "host"
      { masterKey := none, passphrase := none, masterDb := none,
        userDb := some { version := 1, fields := [] } } =
      .error .secureFieldNotFound ∧
    SecureCredentials.get_secure "f" (some (List.replicate 16 0)) "host"
      { masterKey := none, passphrase := none, masterDb := none,
        userDb := some { version := 1, fields := [("f",
          { ciphertext := b64encode (List.replicate 16 0),
            nonce := b64encode (List.replicate 12 0) })] } } =
      .error .fieldDecryption :=
  ⟨(C5_get_secure_taxonomy "f" (List.replicate 16 0) "host"
      { masterKey := none, passphrase := none, masterDb := none, userDb := none }
      { version := 1, fields := [] } { ciphertext := [], nonce := [] }).1 rfl,
   (C5_get_secure_taxonomy "f" (List.replicate 16 0) "host"
      { masterKey := none, passphrase := none, masterDb := none,
        userDb := some { version := 1, fields := [] } }
      { version := 1, fields := [] } { ciphertext := [], nonce := [] }).2.1 rfl rfl,
   (C5_get_secure_taxonomy "f" (List.replicate 16 0) "host"
      { masterKey := none, passphrase := none, masterDb := none,
        userDb := some { version := 1, fields := [("f",
          { ciphertext := b64encode (List.replicate 16 0),
            nonce := b64encode (List.replicate 12 0) })] } }
      { version := 1, fields := [("f",
          { ciphertext := b64encode (List.replicate 16 0),
            nonce := b64encode (List.replicate 12 0) })] }
      { ciphertext := b64encode (List.replicate 16 0),
        nonce := b64encode (List.replicate 12 0) }).2.2 rfl (by decide) (by decide)
      (by decide)⟩

/-- C7 counterexample: the persisted `schema_version` is not a JSON
integer — `store_key` writes `str(MASTER_DB_VERSION)`, a JSON string. -/
theorem C7_counterexample_schema_version_is_string :
    JVal.isInt (KeyHandler.store_key (List.replicate 32 0) none "host"
      (List.replicate 16 0) (List.replicate 12 0)).schema_version = false := rfl

/-- C7 (amended): every container written by `store_key` has mode `system`
or `passphrase`, a `schema_version` equal to the decimal string rendering
of the schema version integer (not a JSON integer), a `salt` that decodes
to exactly 16 bytes, a `nonce` that decodes to exactly 12 bytes, and a
`data` field that decodes to the AES-GCM ciphertext-plus-tag of the DEK
under the derived KEK. -/
theorem C7_container_format (dek salt nonce : List Nat) (pass : Option String)
    (sysid : String) (hsaltlen : salt.length = 16) (hsalt : ∀ b ∈ salt, b < 256)
    (hnoncelen : nonce.length = 12) (hnonce : ∀ b ∈ nonce, b < 256)
    (hdek : ∀ b ∈ dek, b < 256) :
    ((KeyHandler.store_key dek pass sysid salt nonce).mode = "system" ∨
      (KeyHandler.store_key dek pass sysid salt nonce).mode = "passphrase") ∧
    (KeyHandler.store_key dek pass sysid salt nonce).schema_version =
      .jstr (Nat.repr MASTER_DB_VERSION) ∧
    (b64decode (KeyHandler.store_key dek pass sysid salt nonce).salt).length = 16 ∧
    (b64decode (KeyHandler.store_key dek pass sysid salt nonce).nonce).length = 12 ∧
    b64decode (KeyHandler.store_key dek pass sysid salt nonce).data =
      aesgcmEncrypt
        (match pass with
         | none => KeyHandler.getDeterministicKek sysid salt
         | some p => KeyHandler.getKekFromPassphrase p salt) nonce dek none := by
  cases pass with
  | none =>
      refine ⟨Or.inl rfl, rfl, ?_, ?_, ?_⟩
      · rw [show (KeyHandler.store_key dek none sysid salt nonce).salt =
              b64encode salt from rfl, b64decode_b64encode salt hsalt, hsaltlen]
      · rw [show (KeyHandler.store_key dek none sysid salt nonce).nonce =
              b64encode nonce from rfl, b64decode_b64encode nonce hnonce, hnoncelen]
      · rw [show (KeyHandler.store_key dek none sysid salt nonce).data =
              b64encode (aesgcmEncrypt (KeyHandler.getDeterministicKek sysid salt)
                nonce dek none) from rfl,
            b64decode_b64encode _ (aesgcmEncrypt_bytes_lt _ nonce dek none hdek)]
  | some p =>
      refine ⟨Or.inr rfl, rfl, ?_, ?_, ?_⟩
      · rw [show (KeyHandler.store_key dek (some p) sysid salt nonce).salt =
              b64encode salt from rfl, b64decode_b64encode salt hsalt, hsaltlen]
      · rw [show (KeyHandler.store_key dek (some p) sysid salt nonce).nonce =
              b64encode nonce from rfl, b64decode_b64encode nonce hnonce, hnoncelen]
      · rw [show (KeyHandler.store_key dek (some p) sysid salt nonce).data =
              b64encode (aesgcmEncrypt (KeyHandler.getKekFromPassphrase p salt)
                nonce dek none) from rfl,
            b64decode_b64encode _ (aesgcmEncrypt_bytes_lt _ nonce dek none hdek)]

/-- C7 witness: the amended container format at a concrete 32-byte DEK,
16-byte salt and 12-byte nonce in system mode. -/
theorem C7_container_format_witness :
    ((KeyHandler.store_key (List.replicate 32 0) none "host" (List.replicate 16 0)
        (List.replicate 12 0)).mode = "system" ∨
      (KeyHandler.store_key (List.replicate 32 0) none "host" (List.replicate 16 0)
        (List.replicate 12 0)).mode = "passphrase") ∧
    (KeyHandler.store_key (List.replicate 32 0) none "host" (List.replicate 16 0)
      (List.replicate 12 0)).schema_version = .jstr (Nat.repr MASTER_DB_VERSION) ∧
    (b64decode (KeyHandler.store_key (List.replicate 32 0) none "host"
      (List.replicate 16 0) (List.replicate 12 0)).salt).length = 16 ∧
    (b64decode (KeyHandler.store_key (List.replicate 32 0) none "host"
      (List.replicate 16 0) (List.replicate 12 0)).nonce).length = 12 ∧
    b64decode (KeyHandler.store_key (List.replicate 32 0) none "host"
      (List.replicate 16 0) (List.replicate 12 0)).data =
      aesgcmEncrypt (KeyHandler.getDeterministicKek "host" (List.replicate 16 0))
        (List.replicate 12 0) (List.replicate 32 0) none :=
  C7_container_format (List.replicate 32 0) (List.replicate 16 0) (List.replicate 12 0)
    none "host" (by decide) (by decide) (by decide) (by decide) (by decide)

/-- C10: when `get_secure` or `set_secure` is called with `key=None` and no
master key is cached, the master key is loaded from disk before the user
database is examined — with the master file absent, both fail with
`MasterDatabaseNotFoundError` even though the user database file is also
absent. -/
theorem C10_master_load_precedes_user_checks (field : String) (pt : List Nat)
    (conf : Bool) (resp : String) (nonce : List Nat) (sysid : String) (s : VaultState)
    (h1 : s.masterKey = none) (h2 : s.masterDb = none) (_h3 : s.userDb = none) :
    SecureCredentials.get_secure field none sysid s =
      .error .masterDatabaseNotFound ∧
    SecureCredentials.set_secure field pt none conf resp nonce sysid s =
      .error .masterDatabaseNotFound := by
  constructor
  · simp [SecureCredentials.get_secure, SecureCredentials.resolveKey,
          SecureCredentials.loadMasterKey, h1, h2]
  · simp [SecureCredentials.set_secure, SecureCredentials.resolveKey,
          SecureCredentials.loadMasterKey, h1, h2]

/-- C10 witness: both calls on the all-absent state fail with
`MasterDatabaseNotFoundError`. -/
theorem C10_master_load_precedes_user_checks_witness :
    SecureCredentials.get_secure "f" none "host"
      { masterKey := none, passphrase := none, masterDb := none, userDb := none } =
      .error .masterDatabaseNotFound ∧
    SecureCredentials.set_secure "f" [1] none true "y" (List.replicate 12 0) "host"
      { masterKey := none, passphrase := none, masterDb := none, userDb := none } =
      .error .masterDatabaseNotFound :=
  C10_master_load_precedes_user_checks "f" [1] true "y" (List.replicate 12 0) "host"
    { masterKey := none, passphrase := none, masterDb := none, userDb := none }
    rfl rfl rfl

/-- Key resolution never touches the two files or the passphrase; it can
only populate the in-memory master-key cache. -/
theorem resolveKey_preserves (key : Option (List Nat)) (sysid : String)
    (s : VaultState) (k : List Nat) (s' : VaultState)
    (h : SecureCredentials.resolveKey key sysid s = .ok (k, s')) :
    s'.masterDb = s.masterDb ∧ s'.userDb = s.userDb ∧ s'.passphrase = s.passphrase := by
  cases key with
  | some k0 =>
      rw [show SecureCredentials.resolveKey (some k0) sysid s = .ok (k0, s) from rfl] at h
      simp only [Except.ok.injEq, Prod.mk.injEq] at h
      rcases h with ⟨-, rfl⟩
      exact ⟨rfl, rfl, rfl⟩
  | none =>
      cases hm : s.masterKey with
      | some k0 =>
          have hv : SecureCredentials.resolveKey none sysid s = .ok (k0, s) := by
            unfold SecureCredentials.resolveKey
            rw [hm]
          rw [hv] at h
          simp only [Except.ok.injEq, Prod.mk.injEq] at h
          rcases h with ⟨-, rfl⟩
          exact ⟨rfl, rfl, rfl⟩
      | none =>
          cases hd : s.masterDb with
          | none =>
              have hv : SecureCredentials.resolveKey none sysid s =
                  .error .masterDatabaseNotFound := by
                unfold SecureCredentials.resolveKey SecureCredentials.loadMasterKey
                rw [hm, hd]
              rw [hv] at h
              exact absurd h (by simp)
          | some c =>
              cases hl : KeyHandler.load_key s.passphrase sysid c with
              | error e =>
                  have hv : SecureCredentials.resolveKey none sysid s = .error e := by
                    unfold SecureCredentials.resolveKey SecureCredentials.loadMasterKey
                    simp only [hm, hd, hl]
                  rw [hv] at h
                  exact absurd h (by simp)
              | ok kk =>
                  have hv : SecureCredentials.resolveKey none sysid s =
                      .ok (kk, { s with masterKey := some kk }) := by
                    unfold SecureCredentials.resolveKey SecureCredentials.loadMasterKey
                    simp only [hm, hd, hl, Option.getD_some]
                  rw [hv] at h
                  simp only [Except.ok.injEq, Prod.mk.injEq] at h
                  rcases h with ⟨-, rfl⟩
                  exact ⟨hd, rfl, rfl⟩

/-- The master-key container of the C8 counterexample state: a 16-byte DEK
wrapped in system mode. -/
def c8Container : MasterContainer :=
  KeyHandler.store_key (List.replicate 16 7) none "host" (List.replicate 16 1)
    (List.replicate 12 2)

/-- The C8 counterexample state: no cached master key, master file present,
user store holding field `k`. -/
def c8State : VaultState :=
  { masterKey := none, passphrase := none, masterDb := some c8Container,
    userDb := some { version := 1, fields := [("k", { ciphertext := [], nonce := [] })] } }

set_option maxRecDepth 16384 in
/-- C8 counterexample: declining the overwrite confirmation in `set_secure`
does not leave the cached in-memory master key unchanged — called with
`key=None` on a state with an empty cache, the key is lazily loaded and
cached before the declined prompt, so the cache goes from `None` to the
loaded DEK. -/
theorem C8_counterexample_cache_populated :
    (match SecureCredentials.set_secure "k" [1] none true "n" (List.replicate 12 0)
        "host" c8State with
     | .ok s' => s'.masterKey
     | .error _ => none) = some (List.replicate 16 7) ∧
    c8State.masterKey = none := by
  exact ⟨by decide, rfl⟩

/-- C8 (amended): whenever the confirmation prompt is reached and the reply
is not an affirmation, `store_master_key` returns the state unchanged, and
`set_secure` returns with the two on-disk files and the passphrase
unchanged — but `set_secure` called without an explicit key may first
populate the in-memory master-key cache. -/
theorem C8_declined_confirmation_no_op (mk : List Nat) (resp sysid : String)
    (salt nonce nonce2 : List Nat) (s : VaultState) (field : String) (pt : List Nat)
    (key : Option (List Nat)) (k : List Nat) (s' : VaultState) :
    (validAesKeyLength mk = true → SecureCredentials.affirmed resp = false →
      SecureCredentials.store_master_key mk true resp sysid salt nonce s = .ok s) ∧
    (SecureCredentials.affirmed resp = false →
      SecureCredentials.resolveKey key sysid s = .ok (k, s') →
      ((s'.userDb.getD { version := USER_DB_VERSION, fields := [] }).fields.lookup
        field).isSome = true →
      SecureCredentials.set_secure field pt key true resp nonce2 sysid s = .ok s' ∧
      s'.masterDb = s.masterDb ∧ s'.userDb = s.userDb ∧
      s'.passphrase = s.passphrase) := by
  constructor
  · intro hv ha
    rw [SecureCredentials.store_master_key, if_neg (by rw [hv]; decide),
        if_pos (by rw [ha]; decide)]
  · intro ha hres hfield
    refine ⟨?_, resolveKey_preserves key sysid s k s' hres⟩
    simp only [SecureCredentials.set_secure, hres, hfield, ha]
    simp

/-- The state used by the C8 witness: an explicit key is passed, the user
store holds the field being overwritten. -/
def c8WitnessState : VaultState :=
  { masterKey := none, passphrase := none, masterDb := none,
    userDb := some { version := 1, fields := [("k", { ciphertext := [], nonce := [] })] } }

/-- C8 witness: declined confirmation at concrete inputs — `store_master_key`
and `set_secure` (with an explicit key) both return the state unchanged. -/
theorem C8_declined_confirmation_no_op_witness :
    SecureCredentials.store_master_key (List.replicate 16 0) true "n" "host" [] []
      c8WitnessState = .ok c8WitnessState ∧
    (SecureCredentials.set_secure "k" [1] (some (List.replicate 16 0)) true "n" []
        "host" c8WitnessState = .ok c8WitnessState ∧
      c8WitnessState.masterDb = c8WitnessState.masterDb ∧
      c8WitnessState.userDb = c8WitnessState.userDb ∧
      c8WitnessState.passphrase = c8WitnessState.passphrase) :=
  ⟨(C8_declined_confirmation_no_op (List.replicate 16 0) "n" "host" [] [] []
      c8WitnessState "k" [1] (some (List.replicate 16 0)) (List.replicate 16 0)
      c8WitnessState).1 (by decide) (by decide),
   (C8_declined_confirmation_no_op (List.replicate 16 0) "n" "host" [] [] []
      c8WitnessState "k" [1] (some (List.replicate 16 0)) (List.replicate 16 0)
      c8WitnessState).2 (by decide) rfl (by decide)⟩

/-- With an explicit valid-length key, `set_secure` either discards the
action (existing field, confirmation enabled, reply declined) or rewrites
the store with the field bound to the freshly encrypted entry. -/
theorem set_secure_some_key (field : String) (pt key : List Nat) (conf : Bool)
    (resp : String) (nonce : List Nat) (sysid : String) (s : VaultState)
    (hkey : validAesKeyLength key = true) :
    SecureCredentials.set_secure field pt (some key) conf resp nonce sysid s =
      if ((s.userDb.getD { version := USER_DB_VERSION, fields := [] }).fields.lookup
          field).isSome && conf && !SecureCredentials.affirmed resp then
        .ok s
      else
        .ok { s with userDb := some (
          { (s.userDb.getD { version := USER_DB_VERSION, fields := [] }) with
            fields := dictSet
              (s.userDb.getD { version := USER_DB_VERSION, fields := [] }).fields field
              { ciphertext := b64encode (aesgcmEncrypt key nonce pt none),
                nonce := b64encode nonce } }) } := by
  simp only [SecureCredentials.set_secure, SecureCredentials.resolveKey,
             SecureCredentials.encrypt, hkey, if_true]

/-- C6: for every field `k` and plaintexts `v1`, `v2`, calling
`set_secure(k, v1)` then `set_secure(k, v2, user_confirmation=False)` with
the same (valid) key leaves the store with exactly one entry for `k`, and
`get_secure(k)` under the same key returns `v2`. -/
theorem C6_idempotent_overwrite (k : String) (v1 v2 key : List Nat) (conf1 : Bool)
    (resp1 resp2 : String) (n1 n2 : List Nat) (sysid : String) (s0 s1 : VaultState)
    (hkey : validAesKeyLength key = true)
    (hnodup : keysNodup s0.userDb)
    (hv2 : ∀ b ∈ v2, b < 256) (hn2 : ∀ b ∈ n2, b < 256)
    (h1 : SecureCredentials.set_secure k v1 (some key) conf1 resp1 n1 sysid s0 =
      .ok s1) :
    ∃ (s2 : VaultState) (db : UserDB),
      SecureCredentials.set_secure k v2 (some key) false resp2 n2 sysid s1 =
        .ok s2 ∧
      s2.userDb = some db ∧
      (db.fields.filter (fun p => p.1 == k)).length = 1 ∧
      SecureCredentials.get_secure k (some key) sysid s2 = .ok (v2, s2) := by
  have hdd0 : ((s0.userDb.getD
      { version := USER_DB_VERSION, fields := [] }).fields.map Prod.fst).Nodup := by
    cases hu : s0.userDb with
    | none => simp
    | some db0 =>
        rw [hu] at hnodup
        simpa [keysNodup] using hnodup
  have hnodup1 : ((s1.userDb.getD
      { version := USER_DB_VERSION, fields := [] }).fields.map Prod.fst).Nodup := by
    rw [set_secure_some_key k v1 key conf1 resp1 n1 sysid s0 hkey] at h1
    split at h1
    · simp only [Except.ok.injEq] at h1
      subst h1
      exact hdd0
    · simp only [Except.ok.injEq] at h1
      subst h1
      simpa using dictSet_keys_nodup _ k _ hdd0
  refine ⟨{ s1 with userDb := some (
      { (s1.userDb.getD { version := USER_DB_VERSION, fields := [] }) with
        fields := dictSet
          (s1.userDb.getD { version := USER_DB_VERSION, fields := [] }).fields k
          { ciphertext := b64encode (aesgcmEncrypt key n2 v2 none),
            nonce := b64encode n2 } }) },
    { (s1.userDb.getD { version := USER_DB_VERSION, fields := [] }) with
      fields := dictSet
        (s1.userDb.getD { version := USER_DB_VERSION, fields := [] }).fields k
        { ciphertext := b64encode (aesgcmEncrypt key n2 v2 none),
          nonce := b64encode n2 } },
    ?_, rfl, ?_, ?_⟩
  · rw [set_secure_some_key k v2 key false resp2 n2 sysid s1 hkey,
        if_neg (by simp)]
  · exact dictSet_filter_length _ k _ hnodup1
  · simp only [SecureCredentials.get_secure, SecureCredentials.resolveKey]
    rw [show (dictSet
        (s1.userDb.getD { version := USER_DB_VERSION, fields := [] }).fields k
        { ciphertext := b64encode (aesgcmEncrypt key n2 v2 none),
          nonce := b64encode n2 }).lookup k = some
        { ciphertext := b64encode (aesgcmEncrypt key n2 v2 none),
          nonce := b64encode n2 } from dictSet_lookup _ k _]
    simp only [SecureCredentials.decrypt, hkey, if_true,
               b64_aesgcm_round key n2 v2 hv2 hn2]

/-- C6 witness: starting from an absent store, setting `k` twice with a
concrete key leaves one entry decrypting to the second value. -/
theorem C6_idempotent_overwrite_witness :
    ∃ (s2 : VaultState) (db : UserDB),
      SecureCredentials.set_secure "k" [2] (some (List.replicate 16 0)) false "y"
        (List.replicate 12 3) "host"
        { masterKey := none, passphrase := none, masterDb := none,
          userDb := some { version := USER_DB_VERSION, fields := [("k",
            { ciphertext := b64encode (aesgcmEncrypt (List.replicate 16 0)
                (List.replicate 12 0) [1] none),
              nonce := b64encode (List.replicate 12 0) })] } } = .ok s2 ∧
      s2.userDb = some db ∧
      (db.fields.filter (fun p => p.1 == "k")).length = 1 ∧
      SecureCredentials.get_secure "k" (some (List.replicate 16 0)) "host" s2 =
        .ok ([2], s2) :=
  C6_idempotent_overwrite "k" [1] [2] (List.replicate 16 0) false "x" "y"
    (List.replicate 12 0) (List.replicate 12 3) "host"
    { masterKey := none, passphrase := none, masterDb := none, userDb := none }
    { masterKey := none, passphrase := none, masterDb := none,
      userDb := some { version := USER_DB_VERSION, fields := [("k",
        { ciphertext := b64encode (aesgcmEncrypt (List.replicate 16 0)
            (List.replicate 12 0) [1] none),
          nonce := b64encode (List.replicate 12 0) })] } }
    (by decide) trivial (by decide) (by decide) rfl

end SecureCred
